import Mathlib

/-!
Verification of the NMTC document-type detection engine
(`app/services/detection_service.py`, `app/utils/nmtc_patterns.py`,
and the confidence tiering in `app/api/documents.py`).

The embedding models OCR text as `List Char` and confidence scores as `ℚ`.
The regex engine (`re.finditer`) is abstracted as a matcher oracle that, for
a document type and a pattern category, yields the raw `(start, end)` character
offsets of the matches found by that category's patterns, in discovery order.
Everything downstream of the raw offsets — per-match confidence arithmetic,
context extraction, per-category best-match reduction, weighted aggregation,
the classification pipeline, indicator splitting, reasoning generation and
confidence tiering — is translated directly from the source.
-/

namespace NMTC

/-- `NMTCDocumentType` from `app/utils/nmtc_patterns.py`, in declaration order. -/
inductive NMTCDocumentType where
  | allocation_agreement
  | qlici_loan
  | qalicb_certification
  | community_benefits_agreement
  | annual_compliance_report
  | financial_statement
  | promissory_note
  | insurance_document
  | unknown
deriving DecidableEq, Repr

/-- The `.value` string of each enum member (`NMTCDocumentType(str, Enum)`). -/
def docTypeValue : NMTCDocumentType → String
  | .allocation_agreement => "allocation_agreement"
  | .qlici_loan => "qlici_loan"
  | .qalicb_certification => "qalicb_certification"
  | .community_benefits_agreement => "cba"
  | .annual_compliance_report => "annual_compliance_report"
  | .financial_statement => "financial_statement"
  | .promissory_note => "promissory_note"
  | .insurance_document => "insurance"
  | .unknown => "unknown"

/-- Pattern-category keys appearing in `NMTCPatterns.DOCUMENT_PATTERNS`.
`other s` stands for any category name not among the nine declared ones,
so the `.get(..., default)` fallbacks of the source are representable. -/
inductive Category where
  | title_patterns
  | key_terms
  | structural_patterns
  | financial_patterns
  | certification_patterns
  | commitment_patterns
  | reporting_patterns
  | legal_patterns
  | insurance_patterns
  | other (s : String)
deriving DecidableEq, Repr

/-- The category's name string as used in `pattern_type` fields. -/
def categoryName : Category → String
  | .title_patterns => "title_patterns"
  | .key_terms => "key_terms"
  | .structural_patterns => "structural_patterns"
  | .financial_patterns => "financial_patterns"
  | .certification_patterns => "certification_patterns"
  | .commitment_patterns => "commitment_patterns"
  | .reporting_patterns => "reporting_patterns"
  | .legal_patterns => "legal_patterns"
  | .insurance_patterns => "insurance_patterns"
  | .other s => s

/-- `NMTCPatterns.SCORING_WEIGHTS`, with the `.get(pattern_category, 0.1)`
default of `_score_document_type` for undeclared categories. -/
def SCORING_WEIGHTS : Category → ℚ
  | .title_patterns => 4/10
  | .key_terms => 3/10
  | .structural_patterns => 2/10
  | .financial_patterns => 15/100
  | .certification_patterns => 15/100
  | .commitment_patterns => 15/100
  | .reporting_patterns => 15/100
  | .legal_patterns => 15/100
  | .insurance_patterns => 15/100
  | .other _ => 1/10

/-- `category_multipliers` from `_calculate_match_confidence`, with its
`.get(pattern_category, 1.0)` default. -/
def categoryMultiplier : Category → ℚ
  | .title_patterns => 12/10
  | .key_terms => 1
  | .structural_patterns => 9/10
  | .financial_patterns => 8/10
  | .certification_patterns => 9/10
  | .commitment_patterns => 8/10
  | .reporting_patterns => 8/10
  | .legal_patterns => 8/10
  | .insurance_patterns => 8/10
  | .other _ => 1

/-- The keys of `DOCUMENT_PATTERNS[doc_type]`, in dict insertion order.
The regexes themselves are abstracted behind the matcher oracle; only the
category structure (which drives scoring) is embedded. -/
def categoriesOf : NMTCDocumentType → List Category
  | .allocation_agreement => [.title_patterns, .key_terms, .structural_patterns]
  | .qlici_loan => [.title_patterns, .key_terms, .financial_patterns]
  | .qalicb_certification => [.title_patterns, .key_terms, .certification_patterns]
  | .community_benefits_agreement => [.title_patterns, .key_terms, .commitment_patterns]
  | .annual_compliance_report => [.title_patterns, .key_terms, .reporting_patterns]
  | .financial_statement => [.title_patterns, .key_terms, .financial_patterns]
  | .promissory_note => [.title_patterns, .key_terms, .legal_patterns]
  | .insurance_document => [.title_patterns, .key_terms, .insurance_patterns]
  | .unknown => []

/-- `get_all_document_types`: every `NMTCDocumentType` except `unknown`,
in enum declaration order. -/
def get_all_document_types : List NMTCDocumentType :=
  [.allocation_agreement, .qlici_loan, .qalicb_certification,
   .community_benefits_agreement, .annual_compliance_report,
   .financial_statement, .promissory_note, .insurance_document]

/-- `MIN_CONFIDENCE_THRESHOLDS['low_confidence']`. -/
def low_confidence_threshold : ℚ := 2/10

/-- `MIN_CONFIDENCE_THRESHOLDS['medium_confidence']`. -/
def medium_confidence_threshold : ℚ := 4/10

/-- `MIN_CONFIDENCE_THRESHOLDS['high_confidence']`. -/
def high_confidence_threshold : ℚ := 7/10

/-- Python `\s` / `str.strip` whitespace, restricted to the ASCII range the
OCR text uses: space, tab, newline, carriage return, vertical tab, form feed. -/
def isPyWhitespace (c : Char) : Bool :=
  c = ' ' ∨ c = '\t' ∨ c = '\n' ∨ c = '\r' ∨ c = '\x0b' ∨ c = '\x0c'

/-- Python `str.strip()`: drop leading and trailing whitespace. -/
def pyStrip (l : List Char) : List Char :=
  ((l.dropWhile isPyWhitespace).reverse.dropWhile isPyWhitespace).reverse

/-- Python slice `text[a:b]` for natural indices. -/
def slice (l : List Char) (a b : Nat) : List Char :=
  (l.drop a).take (b - a)

/-- Worker for `re.sub(r'\s+', ' ', s)`: each maximal whitespace run becomes a
single space.  The flag records whether we are inside a whitespace run. -/
def collapseWSAux : Bool → List Char → List Char
  | _, [] => []
  | inRun, c :: rest =>
    if isPyWhitespace c then
      if inRun then collapseWSAux true rest
      else ' ' :: collapseWSAux true rest
    else c :: collapseWSAux false rest

/-- `re.sub(r'\s+', ' ', s)`. -/
def collapseWS (l : List Char) : List Char := collapseWSAux false l

/-- The ellipsis marker `"..."` used by `_extract_context`. -/
def ellipsisChars : List Char := ['.', '.', '.']

/-- `NMTCDetectionService._extract_context` with its default
`context_size = 100`: take the window `[max(0, start-100), min(n, end+100))`,
collapse whitespace and strip, then mark truncation with ellipses. -/
def extract_context (text : List Char) (s e : Nat) : List Char :=
  let context_start := s - 100
  let context_end := min text.length (e + 100)
  let ctx := pyStrip (collapseWS (slice text context_start context_end))
  let ctx2 := if 0 < context_start then ellipsisChars ++ ctx else ctx
  if context_end < text.length then ctx2 ++ ellipsisChars else ctx2

/-- `NMTCDetectionService._calculate_match_confidence`.
`n` is `len(text_content)`, `s` is `match.start()`, `L` is
`len(match.group(0))`. -/
def calc_match_confidence (n s L : Nat) (cat : Category) : ℚ :=
  let base_confidence : ℚ := 7/10
  let multiplier := categoryMultiplier cat
  let match_position : ℚ := if n = 0 then 0 else (s : ℚ) / (n : ℚ)
  let position_bonus : ℚ :=
    if match_position < 1/10 then 1/10
    else if match_position < 3/10 then 1/20
    else 0
  let length_bonus : ℚ :=
    if L > 50 then 1/10
    else if L > 20 then 1/20
    else 0
  min (base_confidence * multiplier + position_bonus + length_bonus) 1

/-- `PatternMatch` from `app/utils/nmtc_patterns.py`. -/
structure PatternMatch where
  pattern_type : Category
  match_text : List Char
  confidence : ℚ
  location : String
  context : List Char
deriving DecidableEq, Repr

/-- Build the `PatternMatch` record `_score_document_type` creates for one raw
regex hit `(start, end)` of a pattern in category `cat`. -/
def mkPatternMatch (text : List Char) (cat : Category) (r : Nat × Nat) : PatternMatch :=
  { pattern_type := cat
    match_text := slice text r.1 r.2
    confidence := calc_match_confidence text.length r.1 (slice text r.1 r.2).length cat
    location := "Position " ++ toString r.1 ++ "-" ++ toString r.2
    context := extract_context text r.1 r.2 }

/-- All `PatternMatch` records for one category, in discovery order. -/
def mkMatches (text : List Char) (cat : Category) (raws : List (Nat × Nat)) : List PatternMatch :=
  raws.map (mkPatternMatch text cat)

/-- Python `max(xs, key=key)` over a nonempty list `x :: xs`: fold keeping the
current element unless a later element's key is strictly greater, so the first
element attaining the maximum wins. -/
def pyMaxBy {α : Type} (key : α → ℚ) (x : α) (xs : List α) : α :=
  xs.foldl (fun cur y => if key y > key cur then y else cur) x

/-- One iteration of the category loop of `_score_document_type`: if the
category has matches, add the best match's confidence times the category weight
to the running total and append all of the category's matches. -/
def scoreStep (text : List Char) (Mc : Category → List (Nat × Nat))
    (acc : ℚ × List PatternMatch) (cat : Category) : ℚ × List PatternMatch :=
  match mkMatches text cat (Mc cat) with
  | [] => acc
  | m0 :: rest =>
    (acc.1 + (pyMaxBy (fun m => m.confidence) m0 rest).confidence * SCORING_WEIGHTS cat,
     acc.2 ++ (m0 :: rest))

/-- `NMTCDetectionService._score_document_type`: iterate the type's pattern
categories, sum the per-category best-match contributions, cap the total at
1.0, and return every match found. `Mc` is the matcher oracle for this
document type. -/
def score_document_type (text : List Char) (Mc : Category → List (Nat × Nat))
    (t : NMTCDocumentType) : ℚ × List PatternMatch :=
  let r := (categoriesOf t).foldl (scoreStep text Mc) (0, [])
  (min r.1 1, r.2)

/-- `get_confidence_level_description` from `app/utils/nmtc_patterns.py`. -/
def get_confidence_level_description (confidence : ℚ) : String :=
  if confidence ≥ high_confidence_threshold then
    "High - Very confident in document type classification"
  else if confidence ≥ medium_confidence_threshold then
    "Medium - Moderately confident, some indicators present"
  else if confidence ≥ low_confidence_threshold then
    "Low - Weak indicators, may need human review"
  else
    "Very Low - Insufficient indicators for reliable classification"

/-- Worker for Python `str.title()`: uppercase an alphabetic character that
follows a non-alphabetic one, lowercase the rest.  The flag records whether
the previous character was alphabetic. -/
def pyTitleAux : Bool → List Char → List Char
  | _, [] => []
  | prevAlpha, c :: rest =>
    if c.isAlpha then
      (if prevAlpha then c.toLower else c.toUpper) :: pyTitleAux true rest
    else
      c :: pyTitleAux false rest

/-- Python `str.title()`. -/
def pyTitle (l : List Char) : List Char := pyTitleAux false l

/-- `doc_type.value.replace('_', ' ').title()` as used in the reasoning text. -/
def humanTypeName (t : NMTCDocumentType) : String :=
  String.mk (pyTitle ((docTypeValue t).data.map (fun c => if c = '_' then ' ' else c)))

/-- Round a rational to the nearest integer, ties to even (the rounding Python
`format` applies to the decimal digit string). -/
def roundHalfEven (x : ℚ) : ℤ :=
  let f := Rat.floor x
  let r := x - (f : ℚ)
  if r < 1/2 then f
  else if 1/2 < r then f + 1
  else if f % 2 = 0 then f else f + 1

/-- Left-pad a digit string with zeros to the given width. -/
def padZeros (width : Nat) (s : String) : String :=
  String.mk (List.replicate (width - s.length) '0') ++ s

/-- Python `format(x, '.<prec>f')` for a rational, using decimal round half to
even (an idealized-decimal model of CPython's float formatting). -/
def formatQFixed (prec : Nat) (x : ℚ) : String :=
  let p : ℚ := ((10 ^ prec : ℕ) : ℚ)
  let n := roundHalfEven (x * p)
  let sign := if n < 0 then "-" else ""
  let m := n.natAbs
  sign ++ toString (m / 10 ^ prec) ++ "." ++ padZeros prec (toString (m % 10 ^ prec))

/-- Python `f"{x:.3f}"`. -/
def formatQ3 (x : ℚ) : String := formatQFixed 3 x

/-- Python `f"{x:.1%}"`: percentage with one decimal digit. -/
def formatPercent1 (x : ℚ) : String := formatQFixed 1 (x * 100) ++ "%"

/-- Python `sep.join(parts)`. -/
def joinSep (sep : String) : List String → String
  | [] => ""
  | [x] => x
  | x :: y :: rest => x ++ sep ++ joinSep sep (y :: rest)

/-- `", ".join(list(set([m.pattern_type for m in ms])))`: the distinct
pattern-category names of the given matches.  Python's `set` iteration order
is unspecified; the embedding canonicalizes it with `List.dedup`. -/
def distinctCategoryNames (ms : List PatternMatch) : String :=
  joinSep ", " (((ms.map (fun m => m.pattern_type)).dedup).map categoryName)

/-- The bespoke closing sentence `_generate_reasoning` appends for some
document types (the `if doc_type == ... / elif ...` chain at its end). -/
def bespokeSentence : NMTCDocumentType → Option String
  | .allocation_agreement => some "Key NMTC allocation terms and structures identified."
  | .qlici_loan => some "QLICI loan terms and QALICB compliance requirements detected."
  | .qalicb_certification => some "QALICB certification language and compliance tests found."
  | _ => none

/-- The `reasoning_parts` list built by `_generate_reasoning`. -/
def reasoningParts (t : NMTCDocumentType) (confidence : ℚ) (ms : List PatternMatch) :
    List String :=
  let primary := ms.filter (fun m => decide ((1:ℚ)/2 < m.confidence))
  let secondary := ms.filter (fun m => decide (m.confidence ≤ (1:ℚ)/2))
  (["Document classified as " ++ humanTypeName t ++ " with " ++ formatPercent1 confidence
      ++ " confidence.",
    "Confidence Level: " ++ get_confidence_level_description confidence]
   ++ (if primary.isEmpty then []
       else ["Strong indicators found: " ++ distinctCategoryNames primary])
   ++ (if secondary.isEmpty then []
       else ["Supporting indicators: " ++ distinctCategoryNames secondary]))
  ++ (match bespokeSentence t with
      | some s => [s]
      | none => [])

/-- `NMTCDetectionService._generate_reasoning`: `" ".join(reasoning_parts)`. -/
def generate_reasoning (t : NMTCDocumentType) (confidence : ℚ) (ms : List PatternMatch) :
    String :=
  joinSep " " (reasoningParts t confidence ms)

/-- The metadata object of a `DocumentTypeResult`.  The embedding records only
what the claims consult: the `classification_failed: True / failure_reason`
shape produced by `_create_unknown_result`, versus a successfully extracted
bundle (whose regex-driven field contents are abstracted; the detection
timestamp is outside the model). -/
inductive Metadata where
  | classificationFailed (failure_reason : String)
  | extracted
deriving DecidableEq, Repr

/-- `DocumentTypeResult` from `app/utils/nmtc_patterns.py`. -/
structure DocumentTypeResult where
  document_type : NMTCDocumentType
  confidence : ℚ
  primary_indicators : List PatternMatch
  secondary_indicators : List PatternMatch
  metadata : Metadata
  reasoning : String
deriving DecidableEq, Repr

/-- `NMTCDetectionService._create_unknown_result`. -/
def create_unknown_result (reason : String) : DocumentTypeResult :=
  { document_type := .unknown
    confidence := 0
    primary_indicators := []
    secondary_indicators := []
    metadata := .classificationFailed reason
    reasoning := "Document could not be classified: " ++ reason }

/-- `(doc_type, score, matches)` for one candidate type, as accumulated in the
`type_scores` / `all_matches` dicts of `detect_document_type`. -/
def scoreOf (text : List Char) (M : NMTCDocumentType → Category → List (Nat × Nat))
    (t : NMTCDocumentType) : NMTCDocumentType × ℚ × List PatternMatch :=
  (t, score_document_type text (M t) t)

/-- `best_type = max(type_scores, key=type_scores.get)` together with its
score and matches: Python `max` over the insertion-ordered dict keeps the
first key attaining the maximum score. -/
def bestCandidate (text : List Char) (M : NMTCDocumentType → Category → List (Nat × Nat)) :
    NMTCDocumentType × ℚ × List PatternMatch :=
  pyMaxBy (fun p => p.2.1) (scoreOf text M .allocation_agreement)
    ([.qlici_loan, .qalicb_certification, .community_benefits_agreement,
      .annual_compliance_report, .financial_statement, .promissory_note,
      .insurance_document].map (scoreOf text M))

/-- The winning score of the classification loop. -/
def bestScore (text : List Char) (M : NMTCDocumentType → Category → List (Nat × Nat)) : ℚ :=
  (bestCandidate text M).2.1

/-- The winning type's match list. -/
def bestMatches (text : List Char) (M : NMTCDocumentType → Category → List (Nat × Nat)) :
    List PatternMatch :=
  (bestCandidate text M).2.2

/-- `NMTCDetectionService.detect_document_type`.  `M` is the matcher oracle
(the abstracted regex engine); `metaResult` is the outcome of
`_extract_metadata`, which sits inside the method's `try` block, so a failure
there propagates to the `except` clause, which re-raises it as
`DocumentProcessingError(f"Document type detection failed: {e}")`. -/
def detect_document_type (text : List Char)
    (M : NMTCDocumentType → Category → List (Nat × Nat))
    (metaResult : Except String Metadata) : Except String DocumentTypeResult :=
  if text = [] ∨ (pyStrip text).length < 50 then
    Except.ok (create_unknown_result "Insufficient text content for classification")
  else
    let best := bestCandidate text M
    if best.2.1 < low_confidence_threshold then
      Except.ok (create_unknown_result
        ("Low confidence score: " ++ formatQ3 best.2.1 ++ " (threshold: 0.2)"))
    else
      match metaResult with
      | Except.error e => Except.error ("Document type detection failed: " ++ e)
      | Except.ok md =>
        Except.ok
          { document_type := best.1
            confidence := best.2.1
            primary_indicators := best.2.2.filter (fun m => decide ((1:ℚ)/2 < m.confidence))
            secondary_indicators := best.2.2.filter (fun m => decide (m.confidence ≤ (1:ℚ)/2))
            metadata := md
            reasoning := generate_reasoning best.1 best.2.1 best.2.2 }

/-- The confidence-tier decision shape of `get_detection_status` /
`get_document_status` in `app/api/documents.py`. -/
structure TierInfo where
  confidence_level : String
  requires_confirmation : Bool
  auto_process_countdown : Option Nat
deriving DecidableEq, Repr

/-- The tiering logic of `app/api/documents.py` (`get_detection_status` lines
356-363 and the identical branch in `get_document_status`). -/
def detectionConfidenceTier (confidence : ℚ) : TierInfo :=
  if confidence ≥ 9/10 then ⟨"high", false, none⟩
  else if confidence ≥ 7/10 then ⟨"medium", true, some 10⟩
  else ⟨"low", true, none⟩

/-! Spec-side definitions, written from the claims' words, to be compared
with the code-side definitions above. -/

/-- Spec-side (claim C2): the category-importance multiplier table as the
claim states it. -/
def specC2Multiplier : Category → ℚ
  | .title_patterns => 12/10
  | .key_terms => 1
  | .structural_patterns => 9/10
  | .certification_patterns => 9/10
  | .financial_patterns => 8/10
  | .commitment_patterns => 8/10
  | .reporting_patterns => 8/10
  | .legal_patterns => 8/10
  | .insurance_patterns => 8/10
  | .other _ => 1

/-- Spec-side (claim C2): position bonus for a match at offset `p` in a text
of length `n`: 0.10 if `p/n < 0.1`, 0.05 if `p/n < 0.3`, else 0. -/
def specC2PosBonus (p n : Nat) : ℚ :=
  if (p : ℚ) / (n : ℚ) < 1/10 then 1/10
  else if (p : ℚ) / (n : ℚ) < 3/10 then 1/20
  else 0

/-- Spec-side (claim C2): length bonus for matched text of length `L`:
0.10 if `L > 50`, 0.05 if `L > 20`, else 0. -/
def specC2LenBonus (L : Nat) : ℚ :=
  if L > 50 then 1/10
  else if L > 20 then 1/20
  else 0

/-- Spec-side (claim C3): the highest per-match confidence of a list of
matches (0 for an empty list). -/
def maxMatchConfidence : List PatternMatch → ℚ
  | [] => 0
  | m :: rest => rest.foldl (fun a x => max a x.confidence) m.confidence

/-! Proof-support definitions. -/

/-- The contribution one pattern category adds to a document type's total
score: 0 when the category has no matches, otherwise the best match's
confidence times the category weight (the body of the `if category_matches:`
block of `_score_document_type`). -/
def contribOf (text : List Char) (Mc : Category → List (Nat × Nat)) (cat : Category) : ℚ :=
  match mkMatches text cat (Mc cat) with
  | [] => 0
  | m0 :: rest => (pyMaxBy (fun m => m.confidence) m0 rest).confidence * SCORING_WEIGHTS cat

/-- Upper bound of any per-match confidence in category `cat`: the position
and length bonuses are each at most 0.1. -/
def capQ (cat : Category) : ℚ := min (7/10 * categoryMultiplier cat + 1/5) 1

/-- Upper bound of a category's score contribution. -/
def capContrib (cat : Category) : ℚ := capQ cat * SCORING_WEIGHTS cat

/-- Two characters may not both be whitespace — adjacent positions of a
whitespace-collapsed string satisfy this. -/
def noAdjWS (a b : Char) : Prop :=
  ¬(isPyWhitespace a = true ∧ isPyWhitespace b = true)

/-! Concrete fixtures used by the witness theorems: a 60-character text and a
matcher oracle reporting a single title-pattern hit for the allocation
agreement type (confidence `min(0.7*1.2 + 0.1, 1) = 0.94`, so the type scores
`0.94 * 0.4 = 0.376`, above the 0.2 floor). -/

/-- Witness text: 60 non-whitespace characters. -/
def witText : List Char := List.replicate 60 'a'

/-- Witness matcher oracle: one raw hit `(0, 20)` of an
`allocation_agreement` title pattern, nothing else. -/
def witM : NMTCDocumentType → Category → List (Nat × Nat) :=
  fun t c =>
    match t, c with
    | .allocation_agreement, .title_patterns => [(0, 20)]
    | _, _ => []

/-! Helper lemmas. -/

lemma pyMaxBy_cons {α : Type} (key : α → ℚ) (x z : α) (zs : List α) :
    pyMaxBy key x (z :: zs) = pyMaxBy key (if key z > key x then z else x) zs := rfl

lemma pyMaxBy_mem {α : Type} (key : α → ℚ) (x : α) (xs : List α) :
    pyMaxBy key x xs ∈ x :: xs := by
  induction xs generalizing x with
  | nil => simp [pyMaxBy]
  | cons z zs ih =>
    rw [pyMaxBy_cons]
    rcases List.mem_cons.mp (ih (if key z > key x then z else x)) with h1 | h1
    · rw [h1]
      split
      · exact List.mem_cons_of_mem _ (List.mem_cons_self _ _)
      · exact List.mem_cons_self _ _
    · exact List.mem_cons_of_mem _ (List.mem_cons_of_mem _ h1)

lemma pyMaxBy_le {α : Type} (key : α → ℚ) (x : α) (xs : List α) :
    ∀ y ∈ x :: xs, key y ≤ key (pyMaxBy key x xs) := by
  induction xs generalizing x with
  | nil =>
    intro y hy
    rcases List.mem_cons.mp hy with h | h
    · rw [h]; exact le_refl _
    · simp at h
  | cons z zs ih =>
    intro y hy
    rw [pyMaxBy_cons]
    have hx : key x ≤ key (if key z > key x then z else x) := by
      split
      · exact le_of_lt (by assumption)
      · exact le_refl _
    have hz : key z ≤ key (if key z > key x then z else x) := by
      split
      · exact le_refl _
      · exact le_of_not_lt (by assumption)
    have hhead := ih (if key z > key x then z else x) _ (List.mem_cons_self _ _)
    rcases List.mem_cons.mp hy with h | h
    · subst h; exact le_trans hx hhead
    · rcases List.mem_cons.mp h with h2 | h2
      · subst h2; exact le_trans hz hhead
      · exact ih _ y (List.mem_cons_of_mem _ h2)

lemma pyMaxBy_key_le {α : Type} (key : α → ℚ) (x : α) (xs : List α) (b : ℚ)
    (hx : key x ≤ b) (hxs : ∀ y ∈ xs, key y ≤ b) : key (pyMaxBy key x xs) ≤ b := by
  rcases List.mem_cons.mp (pyMaxBy_mem key x xs) with h | h
  · rw [h]; exact hx
  · exact hxs _ h

lemma pyMaxBy_key_eq {α : Type} (key : α → ℚ) (x : α) (xs : List α) :
    key (pyMaxBy key x xs) = xs.foldl (fun a y => max a (key y)) (key x) := by
  induction xs generalizing x with
  | nil => rfl
  | cons z zs ih =>
    rw [pyMaxBy_cons, ih, List.foldl_cons]
    congr 1
    split
    · exact (max_eq_right (le_of_lt (by assumption))).symm
    · exact (max_eq_left (le_of_not_lt (by assumption))).symm

lemma foldl_scoreStep (text : List Char) (Mc : Category → List (Nat × Nat)) :
    ∀ (cats : List Category) (q : ℚ) (ms : List PatternMatch),
      cats.foldl (scoreStep text Mc) (q, ms)
        = (q + (cats.map (contribOf text Mc)).sum,
           ms ++ cats.flatMap (fun c => mkMatches text c (Mc c))) := by
  intro cats
  induction cats with
  | nil => intro q ms; simp
  | cons c cs ih =>
    intro q ms
    rw [List.foldl_cons, List.map_cons, List.sum_cons, List.flatMap_cons]
    cases hm : mkMatches text c (Mc c) with
    | nil =>
      rw [show scoreStep text Mc (q, ms) c = (q, ms) by simp [scoreStep, hm], ih,
        show contribOf text Mc c = 0 by simp [contribOf, hm]]
      simp
    | cons m0 rest =>
      rw [show scoreStep text Mc (q, ms) c
            = (q + (pyMaxBy (fun m => m.confidence) m0 rest).confidence * SCORING_WEIGHTS c,
               ms ++ (m0 :: rest)) by simp [scoreStep, hm],
        ih,
        show contribOf text Mc c
            = (pyMaxBy (fun m => m.confidence) m0 rest).confidence * SCORING_WEIGHTS c by
          simp [contribOf, hm]]
      rw [add_assoc, List.append_assoc]

lemma score_document_type_eq (text : List Char) (Mc : Category → List (Nat × Nat))
    (t : NMTCDocumentType) :
    score_document_type text Mc t
      = (min ((categoriesOf t).map (contribOf text Mc)).sum 1,
         (categoriesOf t).flatMap (fun c => mkMatches text c (Mc c))) := by
  rw [score_document_type, foldl_scoreStep]
  simp

lemma posBonus_nonneg (x : ℚ) :
    0 ≤ (if x < 1/10 then (1:ℚ)/10 else if x < 3/10 then 1/20 else 0) := by
  split_ifs <;> norm_num

lemma posBonus_le (x : ℚ) :
    (if x < 1/10 then (1:ℚ)/10 else if x < 3/10 then 1/20 else 0) ≤ 1/10 := by
  split_ifs <;> norm_num

lemma lenBonus_nonneg (L : Nat) :
    0 ≤ (if L > 50 then (1:ℚ)/10 else if L > 20 then 1/20 else 0) := by
  split_ifs <;> norm_num

lemma lenBonus_le (L : Nat) :
    (if L > 50 then (1:ℚ)/10 else if L > 20 then 1/20 else 0) ≤ 1/10 := by
  split_ifs <;> norm_num

lemma multiplier_ge (cat : Category) : 4/5 ≤ categoryMultiplier cat := by
  cases cat <;> norm_num [categoryMultiplier]

lemma calc_floor (n s L : Nat) (cat : Category) :
    14/25 ≤ calc_match_confidence n s L cat := by
  simp only [calc_match_confidence]
  refine le_min ?_ (by norm_num)
  have h1 := posBonus_nonneg (if n = 0 then (0:ℚ) else (s : ℚ) / (n : ℚ))
  have h2 := lenBonus_nonneg L
  have h3 := multiplier_ge cat
  nlinarith

lemma calc_le_cap (n s L : Nat) (cat : Category) :
    calc_match_confidence n s L cat ≤ capQ cat := by
  simp only [calc_match_confidence, capQ]
  apply min_le_min _ (le_refl 1)
  have h1 := posBonus_le (if n = 0 then (0:ℚ) else (s : ℚ) / (n : ℚ))
  have h2 := lenBonus_le L
  linarith

lemma capQ_nonneg (cat : Category) : 0 ≤ capQ cat := by
  refine le_min ?_ (by norm_num)
  have := multiplier_ge cat
  nlinarith

lemma weight_nonneg (cat : Category) : 0 ≤ SCORING_WEIGHTS cat := by
  cases cat <;> norm_num [SCORING_WEIGHTS]

lemma mem_mkMatches (text : List Char) (cat : Category) (raws : List (Nat × Nat))
    (m : PatternMatch) (h : m ∈ mkMatches text cat raws) :
    ∃ r ∈ raws, m = mkPatternMatch text cat r := by
  rcases List.mem_map.mp h with ⟨r, hr, he⟩
  exact ⟨r, hr, he.symm⟩

lemma mem_mkMatches_conf_floor (text : List Char) (cat : Category)
    (raws : List (Nat × Nat)) (m : PatternMatch) (h : m ∈ mkMatches text cat raws) :
    14/25 ≤ m.confidence := by
  rcases mem_mkMatches text cat raws m h with ⟨r, _, he⟩
  rw [he]
  exact calc_floor _ _ _ _

lemma mem_mkMatches_conf_cap (text : List Char) (cat : Category)
    (raws : List (Nat × Nat)) (m : PatternMatch) (h : m ∈ mkMatches text cat raws) :
    m.confidence ≤ capQ cat := by
  rcases mem_mkMatches text cat raws m h with ⟨r, _, he⟩
  rw [he]
  exact calc_le_cap _ _ _ _

lemma contrib_le_cap (text : List Char) (Mc : Category → List (Nat × Nat)) (cat : Category) :
    contribOf text Mc cat ≤ capContrib cat := by
  rw [contribOf, capContrib]
  cases hm : mkMatches text cat (Mc cat) with
  | nil => exact mul_nonneg (capQ_nonneg cat) (weight_nonneg cat)
  | cons m0 rest =>
    apply mul_le_mul_of_nonneg_right _ (weight_nonneg cat)
    apply pyMaxBy_key_le
    · exact mem_mkMatches_conf_cap text cat (Mc cat) m0 (hm ▸ List.mem_cons_self _ _)
    · intro y hy
      exact mem_mkMatches_conf_cap text cat (Mc cat) y (hm ▸ List.mem_cons_of_mem _ hy)

lemma capSum_le (t : NMTCDocumentType) :
    ((categoriesOf t).map capContrib).sum ≤ 209/250 := by
  cases t <;>
    norm_num [categoriesOf, capContrib, capQ, SCORING_WEIGHTS, categoryMultiplier, min_def]

lemma capSum_allocation :
    ((categoriesOf .allocation_agreement).map capContrib).sum = 209/250 := by
  norm_num [categoriesOf, capContrib, capQ, SCORING_WEIGHTS, categoryMultiplier, min_def]

lemma score_fst_le (text : List Char) (Mc : Category → List (Nat × Nat))
    (t : NMTCDocumentType) : (score_document_type text Mc t).1 ≤ 209/250 := by
  rw [score_document_type_eq]
  refine le_trans (min_le_left _ _) (le_trans (List.sum_le_sum ?_) (capSum_le t))
  intro c _
  exact contrib_le_cap text Mc c

lemma bestCandidate_shape (text : List Char)
    (M : NMTCDocumentType → Category → List (Nat × Nat)) :
    ∃ t ∈ get_all_document_types, bestCandidate text M = scoreOf text M t := by
  rcases List.mem_cons.mp
      (pyMaxBy_mem (fun p => p.2.1) (scoreOf text M .allocation_agreement)
        ([.qlici_loan, .qalicb_certification, .community_benefits_agreement,
          .annual_compliance_report, .financial_statement, .promissory_note,
          .insurance_document].map (scoreOf text M))) with h | h
  · exact ⟨.allocation_agreement, by simp [get_all_document_types], h⟩
  · rcases List.mem_map.mp h with ⟨t, ht, he⟩
    refine ⟨t, ?_, he.symm⟩
    simp only [get_all_document_types]
    simp at ht ⊢
    tauto

lemma bestType_ne_unknown (text : List Char)
    (M : NMTCDocumentType → Category → List (Nat × Nat)) :
    (bestCandidate text M).1 ≠ .unknown := by
  rcases bestCandidate_shape text M with ⟨t, ht, he⟩
  rw [he, scoreOf]
  simp only [get_all_document_types] at ht
  simp at ht
  rcases ht with h | h | h | h | h | h | h | h <;> subst h <;> simp

lemma bestScore_le (text : List Char)
    (M : NMTCDocumentType → Category → List (Nat × Nat)) :
    bestScore text M ≤ 209/250 := by
  rw [bestScore, bestCandidate]
  refine pyMaxBy_key_le
    (fun p : NMTCDocumentType × ℚ × List PatternMatch => p.2.1) _ _ _
    (score_fst_le text (M .allocation_agreement) .allocation_agreement) ?_
  intro y hy
  rcases List.mem_map.mp hy with ⟨t, _, he⟩
  rw [← he]
  exact score_fst_le text (M t) t

lemma bestScore_is_max (text : List Char)
    (M : NMTCDocumentType → Category → List (Nat × Nat)) :
    ∀ t ∈ get_all_document_types,
      (score_document_type text (M t) t).1 ≤ bestScore text M := by
  intro t ht
  rw [bestScore, bestCandidate]
  refine pyMaxBy_le
    (fun p : NMTCDocumentType × ℚ × List PatternMatch => p.2.1) _ _ (scoreOf text M t) ?_
  simp only [get_all_document_types] at ht
  simp at ht
  rcases ht with h | h | h | h | h | h | h | h <;> subst h <;> simp

lemma bestMatches_eq_flatMap (text : List Char)
    (M : NMTCDocumentType → Category → List (Nat × Nat)) :
    ∃ t ∈ get_all_document_types,
      bestMatches text M
        = (categoriesOf t).flatMap (fun c => mkMatches text c (M t c)) := by
  rcases bestCandidate_shape text M with ⟨t, ht, he⟩
  refine ⟨t, ht, ?_⟩
  rw [bestMatches, he, scoreOf]
  rw [show (t, score_document_type text (M t) t).2.2 = (score_document_type text (M t) t).2
    from rfl]
  rw [score_document_type_eq]

lemma mem_bestMatches_conf (text : List Char)
    (M : NMTCDocumentType → Category → List (Nat × Nat)) (m : PatternMatch)
    (h : m ∈ bestMatches text M) : 14/25 ≤ m.confidence := by
  rcases bestMatches_eq_flatMap text M with ⟨t, _, he⟩
  rw [he] at h
  rcases List.mem_flatMap.mp h with ⟨c, _, hm⟩
  exact mem_mkMatches_conf_floor text c (M t c) m hm

lemma bestScore_def (text : List Char)
    (M : NMTCDocumentType → Category → List (Nat × Nat)) :
    (bestCandidate text M).2.1 = bestScore text M := rfl

lemma bestMatches_def (text : List Char)
    (M : NMTCDocumentType → Category → List (Nat × Nat)) :
    (bestCandidate text M).2.2 = bestMatches text M := rfl

lemma detect_guard (text : List Char) (M : NMTCDocumentType → Category → List (Nat × Nat))
    (metaResult : Except String Metadata)
    (h : text = [] ∨ (pyStrip text).length < 50) :
    detect_document_type text M metaResult
      = Except.ok (create_unknown_result "Insufficient text content for classification") := by
  rw [detect_document_type, if_pos h]

lemma detect_lowconf (text : List Char) (M : NMTCDocumentType → Category → List (Nat × Nat))
    (metaResult : Except String Metadata)
    (h1 : ¬(text = [] ∨ (pyStrip text).length < 50))
    (h2 : bestScore text M < low_confidence_threshold) :
    detect_document_type text M metaResult
      = Except.ok (create_unknown_result
          ("Low confidence score: " ++ formatQ3 (bestScore text M) ++ " (threshold: 0.2)")) := by
  rw [detect_document_type, if_neg h1]
  simp only [bestScore_def, bestMatches_def]
  rw [if_pos h2]

lemma detect_success (text : List Char) (M : NMTCDocumentType → Category → List (Nat × Nat))
    (md : Metadata)
    (h1 : ¬(text = [] ∨ (pyStrip text).length < 50))
    (h2 : ¬(bestScore text M < low_confidence_threshold)) :
    detect_document_type text M (Except.ok md)
      = Except.ok
          { document_type := (bestCandidate text M).1
            confidence := bestScore text M
            primary_indicators :=
              (bestMatches text M).filter (fun m => decide ((1:ℚ)/2 < m.confidence))
            secondary_indicators :=
              (bestMatches text M).filter (fun m => decide (m.confidence ≤ (1:ℚ)/2))
            metadata := md
            reasoning :=
              generate_reasoning (bestCandidate text M).1 (bestScore text M)
                (bestMatches text M) } := by
  rw [detect_document_type, if_neg h1]
  simp only [bestScore_def, bestMatches_def]
  rw [if_neg h2]

lemma detect_meta_error (text : List Char)
    (M : NMTCDocumentType → Category → List (Nat × Nat)) (e : String)
    (h1 : ¬(text = [] ∨ (pyStrip text).length < 50))
    (h2 : ¬(bestScore text M < low_confidence_threshold)) :
    detect_document_type text M (Except.error e)
      = Except.error ("Document type detection failed: " ++ e) := by
  rw [detect_document_type, if_neg h1]
  simp only [bestScore_def, bestMatches_def]
  rw [if_neg h2]

lemma filter_partition_length {α : Type} (p : α → Bool) (l : List α) :
    (l.filter p).length + (l.filter (fun a => !(p a))).length = l.length := by
  induction l with
  | nil => simp
  | cons a l ih =>
    cases h : p a <;> simp [List.filter_cons, h, ← ih] <;> omega

lemma decide_le_eq_not_lt (a b : ℚ) : decide (a ≤ b) = !decide (b < a) := by
  rcases le_or_lt a b with h | h
  · simp [h, not_lt.mpr h]
  · simp [h, not_le.mpr h]

lemma maxMatchConfidence_eq (m0 : PatternMatch) (rest : List PatternMatch) :
    (pyMaxBy (fun m => m.confidence) m0 rest).confidence
      = maxMatchConfidence (m0 :: rest) := by
  rw [maxMatchConfidence]
  exact pyMaxBy_key_eq (fun m => m.confidence) m0 rest

lemma contribOf_spec (text : List Char) (Mc : Category → List (Nat × Nat)) (cat : Category) :
    contribOf text Mc cat
      = if (mkMatches text cat (Mc cat)).isEmpty then 0
        else maxMatchConfidence (mkMatches text cat (Mc cat)) * SCORING_WEIGHTS cat := by
  rw [contribOf]
  cases hm : mkMatches text cat (Mc cat) with
  | nil => simp
  | cons m0 rest => simp [maxMatchConfidence_eq]

lemma sum_contrib_filter (text : List Char) (Mc : Category → List (Nat × Nat)) :
    ∀ cats : List Category,
      (cats.map (contribOf text Mc)).sum
        = ((cats.filter (fun c => !(mkMatches text c (Mc c)).isEmpty)).map
            (fun c => maxMatchConfidence (mkMatches text c (Mc c)) * SCORING_WEIGHTS c)).sum := by
  intro cats
  induction cats with
  | nil => simp
  | cons c cs ih =>
    rw [List.map_cons, List.sum_cons, List.filter_cons]
    cases hm : (mkMatches text c (Mc c)).isEmpty with
    | true =>
      rw [contribOf_spec, if_pos hm]
      simpa using ih
    | false =>
      rw [contribOf_spec, if_neg (by rw [hm]; simp)]
      simp only [hm, Bool.not_false, if_pos, List.map_cons, List.sum_cons]
      rw [ih]

lemma slice_nested (l : List Char) (a b c d : Nat) (hab : a ≤ b) (hbc : b ≤ c)
    (hcd : c ≤ d) : slice l b c = ((slice l a d).drop (b - a)).take (c - b) := by
  rw [slice, slice, List.drop_take, List.drop_drop]
  rw [show a + (b - a) = b by omega, List.take_take]
  rw [show (c - b) ⊓ (d - a - (b - a)) = c - b by omega]

lemma slice_within (l : List Char) (a b c d : Nat) (hab : a ≤ b) (hbc : b ≤ c)
    (hcd : c ≤ d) : slice l b c <:+: slice l a d := by
  rw [slice_nested l a b c d hab hbc hcd]
  exact ((List.take_prefix _ _).isInfix).trans ((List.drop_suffix _ _).isInfix)

lemma slice_length_le (l : List Char) (a b : Nat) : (slice l a b).length ≤ b - a := by
  simp only [slice, List.length_take, List.length_drop]
  omega

lemma collapse_aux_props : ∀ l : List Char,
    (∀ hd, (collapseWSAux true l).head? = some hd → isPyWhitespace hd = false)
    ∧ List.Chain' noAdjWS (collapseWSAux true l)
    ∧ List.Chain' noAdjWS (collapseWSAux false l) := by
  intro l
  induction l with
  | nil => exact ⟨by intro hd h; simp [collapseWSAux] at h, by simp [collapseWSAux],
      by simp [collapseWSAux]⟩
  | cons c rest ih =>
    obtain ⟨ihHead, ihT, ihF⟩ := ih
    by_cases hc : isPyWhitespace c = true
    · have e1 : collapseWSAux true (c :: rest) = collapseWSAux true rest := by
        simp [collapseWSAux, hc]
      have e2 : collapseWSAux false (c :: rest) = ' ' :: collapseWSAux true rest := by
        simp [collapseWSAux, hc]
      refine ⟨?_, ?_, ?_⟩
      · intro hd h; rw [e1] at h; exact ihHead hd h
      · rw [e1]; exact ihT
      · rw [e2, List.chain'_cons']
        refine ⟨?_, ihT⟩
        intro y hy hcon
        have := ihHead y (by simpa using hy)
        rw [this] at hcon
        exact Bool.false_ne_true hcon.2
    · have hcf : isPyWhitespace c = false := by
        cases h : isPyWhitespace c
        · rfl
        · exact absurd h hc
      have e1 : collapseWSAux true (c :: rest) = c :: collapseWSAux false rest := by
        simp [collapseWSAux, hcf]
      have e2 : collapseWSAux false (c :: rest) = c :: collapseWSAux false rest := by
        simp [collapseWSAux, hcf]
      have hch : List.Chain' noAdjWS (c :: collapseWSAux false rest) := by
        rw [List.chain'_cons']
        exact ⟨fun y _ hcon => hc hcon.1, ihF⟩
      refine ⟨?_, by rw [e1]; exact hch, by rw [e2]; exact hch⟩
      intro hd h
      rw [e1, List.head?_cons] at h
      cases h
      exact hcf

lemma pyStrip_within (l : List Char) : pyStrip l <:+: l := by
  rw [pyStrip]
  have h1 : l.dropWhile isPyWhitespace <:+ l := List.dropWhile_suffix _
  have h2 : (l.dropWhile isPyWhitespace).reverse.dropWhile isPyWhitespace
      <:+ (l.dropWhile isPyWhitespace).reverse := List.dropWhile_suffix _
  have h3 : ((l.dropWhile isPyWhitespace).reverse.dropWhile isPyWhitespace).reverse
      <+: l.dropWhile isPyWhitespace := by
    have := List.reverse_prefix.mpr h2
    rwa [List.reverse_reverse] at this
  exact (h3.isInfix).trans h1.isInfix

lemma chain_pyStrip_collapse (l : List Char) :
    List.Chain' noAdjWS (pyStrip (collapseWS l)) :=
  List.Chain'.infix ((collapse_aux_props l).2.2) (pyStrip_within _)

lemma joinSep_cons_length (x : String) (l : List String) :
    x.length ≤ (joinSep " " (x :: l)).length := by
  cases l with
  | nil => simp [joinSep]
  | cons y ys =>
    rw [joinSep, String.length_append, String.length_append]
    omega

lemma reasoningParts_head (t : NMTCDocumentType) (c : ℚ) (ms : List PatternMatch) :
    (reasoningParts t c ms).head?
      = some ("Document classified as " ++ humanTypeName t ++ " with "
          ++ formatPercent1 c ++ " confidence.") := by
  rw [reasoningParts]
  simp only [List.cons_append, List.append_assoc, List.head?_cons]

lemma generate_reasoning_pos (t : NMTCDocumentType) (c : ℚ) (ms : List PatternMatch) :
    0 < (generate_reasoning t c ms).length := by
  rw [generate_reasoning]
  rcases hp : reasoningParts t c ms with _ | ⟨x, l⟩
  · have := reasoningParts_head t c ms
    rw [hp] at this
    simp at this
  · have hx : x = "Document classified as " ++ humanTypeName t ++ " with "
        ++ formatPercent1 c ++ " confidence." := by
      have := reasoningParts_head t c ms
      rw [hp, List.head?_cons] at this
      exact Option.some.inj this
    have hlen := joinSep_cons_length x l
    have hxpos : 0 < x.length := by
      have h23 : ("Document classified as ").length = 23 := by decide
      rw [hx]
      simp only [String.length_append]
      omega
    omega

lemma witGuard : ¬(witText = [] ∨ (pyStrip witText).length < 50) := by decide

lemma witScore : bestScore witText witM = 47/125 := by
  simp only [bestScore, bestCandidate, scoreOf, score_document_type, scoreStep, mkMatches,
    mkPatternMatch, calc_match_confidence, categoriesOf, pyMaxBy, witM, witText,
    SCORING_WEIGHTS, categoryMultiplier, List.map_cons, List.map_nil, List.foldl_cons,
    List.foldl_nil, List.length_replicate, slice, List.drop_replicate, List.take_replicate,
    List.length_take, List.length_drop]
  norm_num

lemma witThr : ¬(bestScore witText witM < low_confidence_threshold) := by
  rw [witScore, low_confidence_threshold]
  norm_num

/-! Claim theorems. -/

/-- C2: for every match of a pattern in category `c` starting at offset `p` in
a text of length `n > 0` with matched text of length `L`, the per-match
confidence equals `min(0.7 × mult(c) + posBonus + lenBonus, 1.0)` with the
multiplier table (title 1.2; key terms 1.0; structural/certification 0.9;
financial/commitment/reporting/legal/insurance 0.8; unlisted 1.0), position
bonus (0.10 if p/n < 0.1, 0.05 if p/n < 0.3, else 0) and length bonus
(0.10 if L > 50, 0.05 if L > 20, else 0). -/
theorem calc_match_confidence_formula (cat : Category) (p L n : Nat) (h : 0 < n) :
    calc_match_confidence n p L cat
      = min (7/10 * specC2Multiplier cat + specC2PosBonus p n + specC2LenBonus L) 1 := by
  have hn : ¬(n = 0) := by omega
  have hmult : specC2Multiplier cat = categoryMultiplier cat := by
    cases cat <;> rfl
  simp only [calc_match_confidence, specC2PosBonus, specC2LenBonus, hmult, if_neg hn]

/-- C2 witness: the formula evaluated at category `key_terms`, offset 0,
match length 10, text length 100. -/
theorem calc_match_confidence_formula_witness :
    calc_match_confidence 100 0 10 Category.key_terms
      = min (7/10 * specC2Multiplier Category.key_terms + specC2PosBonus 0 100
          + specC2LenBonus 10) 1 :=
  calc_match_confidence_formula Category.key_terms 0 10 100 (by norm_num)

/-- C3: the Match Scorer's score is `min(1, Σ over the type's categories with
at least one match of (highest per-match confidence × category weight))`, the
weight of an undeclared category defaults to 0.1, and the returned match list
is the concatenation of every category's matches, not just the best ones. -/
theorem score_document_type_spec (text : List Char) (Mc : Category → List (Nat × Nat))
    (t : NMTCDocumentType) :
    (score_document_type text Mc t).1
        = min 1 (((categoriesOf t).filter
              (fun c => !(mkMatches text c (Mc c)).isEmpty)).map
            (fun c => maxMatchConfidence (mkMatches text c (Mc c))
              * SCORING_WEIGHTS c)).sum
      ∧ (score_document_type text Mc t).2
          = (categoriesOf t).flatMap (fun c => mkMatches text c (Mc c))
      ∧ ∀ s : String, SCORING_WEIGHTS (Category.other s) = 1/10 := by
  have h := score_document_type_eq text Mc t
  refine ⟨?_, ?_, fun s => rfl⟩
  · rw [h]
    show min ((categoriesOf t).map (contribOf text Mc)).sum 1 = _
    rw [sum_contrib_filter, min_comm]
  · rw [h]

/-- C3 witness: the characterization evaluated at the concrete fixture. -/
theorem score_document_type_spec_witness :
    (score_document_type witText (witM .allocation_agreement) .allocation_agreement).2
      = (categoriesOf NMTCDocumentType.allocation_agreement).flatMap
          (fun c => mkMatches witText c (witM .allocation_agreement c)) :=
  (score_document_type_spec witText (witM .allocation_agreement)
    .allocation_agreement).2.1

/-- C6: the downstream tiering maps confidence ≥ 0.9 to tier "high" with no
confirmation and no countdown, 0.7 ≤ c < 0.9 to "medium" with confirmation
required and a 10-second countdown, and c < 0.7 to "low" with confirmation
required and no countdown. -/
theorem confidence_tiering (c : ℚ) :
    (detectionConfidenceTier c = ⟨"high", false, none⟩ ↔ 9/10 ≤ c)
    ∧ (detectionConfidenceTier c = ⟨"medium", true, some 10⟩ ↔ 7/10 ≤ c ∧ c < 9/10)
    ∧ (detectionConfidenceTier c = ⟨"low", true, none⟩ ↔ c < 7/10) := by
  rw [detectionConfidenceTier]
  split_ifs with h1 h2
  · refine ⟨⟨fun _ => h1, fun _ => rfl⟩, ?_, ?_⟩
    · exact ⟨fun he => absurd he (by decide), fun hc => absurd h1 (not_le.mpr hc.2)⟩
    · exact ⟨fun he => absurd he (by decide),
        fun hc => absurd h1 (not_le.mpr (lt_of_lt_of_le hc (by norm_num)))⟩
  · refine ⟨?_, ⟨fun _ => ⟨h2, lt_of_not_le h1⟩, fun _ => rfl⟩, ?_⟩
    · exact ⟨fun he => absurd he (by decide), fun hc => absurd hc h1⟩
    · exact ⟨fun he => absurd he (by decide), fun hc => absurd h2 (not_le.mpr hc)⟩
  · refine ⟨?_, ?_, ⟨fun _ => lt_of_not_le h2, fun _ => rfl⟩⟩
    · exact ⟨fun he => absurd he (by decide), fun hc => absurd hc h1⟩
    · exact ⟨fun he => absurd he (by decide), fun hc => absurd hc.1 h2⟩

/-- C6 witness: a confidence of 0.95 lands in the "high" tier (spec
scenario 5). -/
theorem confidence_tiering_witness :
    detectionConfidenceTier (95/100) = ⟨"high", false, none⟩ :=
  (confidence_tiering (95/100)).1.mpr (by norm_num)

/-- C1: classification returns `unknown` iff the text is empty, its trimmed
length is below 50, or the best per-type score is below the 0.2 floor; on both
unknown paths the confidence is 0.0 (not the computed score), both indicator
lists are empty and the reasoning names the cause; otherwise the confidence is
the winning type's score (and the winning score dominates every type's
score). -/
theorem detect_unknown_iff (text : List Char)
    (M : NMTCDocumentType → Category → List (Nat × Nat)) (md : Metadata) :
    ∃ res, detect_document_type text M (Except.ok md) = Except.ok res
      ∧ (res.document_type = NMTCDocumentType.unknown
          ↔ (text = [] ∨ (pyStrip text).length < 50
             ∨ bestScore text M < low_confidence_threshold))
      ∧ ((text = [] ∨ (pyStrip text).length < 50)
          → res.confidence = 0 ∧ res.primary_indicators = []
            ∧ res.secondary_indicators = []
            ∧ res.reasoning = "Document could not be classified: "
                ++ "Insufficient text content for classification")
      ∧ (¬(text = [] ∨ (pyStrip text).length < 50)
          → bestScore text M < low_confidence_threshold
          → res.confidence = 0 ∧ res.primary_indicators = []
            ∧ res.secondary_indicators = []
            ∧ res.reasoning = "Document could not be classified: "
                ++ ("Low confidence score: " ++ formatQ3 (bestScore text M)
                  ++ " (threshold: 0.2)"))
      ∧ (res.document_type ≠ NMTCDocumentType.unknown
          → res.confidence = bestScore text M)
      ∧ (∀ t ∈ get_all_document_types,
          (score_document_type text (M t) t).1 ≤ bestScore text M) := by
  by_cases hg : text = [] ∨ (pyStrip text).length < 50
  · refine ⟨_, detect_guard text M _ hg, ?_, ?_, ?_, ?_, bestScore_is_max text M⟩
    · exact iff_of_true rfl (by tauto)
    · intro _; exact ⟨rfl, rfl, rfl, rfl⟩
    · intro hng _; exact absurd hg hng
    · intro hne; exact absurd rfl hne
  · by_cases hs : bestScore text M < low_confidence_threshold
    · refine ⟨_, detect_lowconf text M _ hg hs, ?_, ?_, ?_, ?_, bestScore_is_max text M⟩
      · exact iff_of_true rfl (by tauto)
      · intro h; exact absurd h hg
      · intro _ _; exact ⟨rfl, rfl, rfl, rfl⟩
      · intro hne; exact absurd rfl hne
    · refine ⟨_, detect_success text M md hg hs, ?_, ?_, ?_, ?_, bestScore_is_max text M⟩
      · constructor
        · intro h; exact absurd h (bestType_ne_unknown text M)
        · intro h
          rcases h with h | h | h
          · exact absurd (Or.inl h) hg
          · exact absurd (Or.inr h) hg
          · exact absurd h hs
      · intro h; exact absurd h hg
      · intro _ h; exact absurd h hs
      · intro _; rfl

/-- C1 witness: at the concrete fixture the classification succeeds, so the
result type is not `unknown` and the confidence is the winning score. -/
theorem detect_unknown_iff_witness :
    ∃ res, detect_document_type witText witM (Except.ok Metadata.extracted) = Except.ok res
      ∧ res.document_type ≠ NMTCDocumentType.unknown
      ∧ res.confidence = bestScore witText witM := by
  obtain ⟨res, h1, h2, _, _, h5, _⟩ := detect_unknown_iff witText witM Metadata.extracted
  have hne : res.document_type ≠ NMTCDocumentType.unknown := by
    rw [ne_eq, h2]
    push_neg
    exact ⟨by decide, by decide, not_lt.mp witThr⟩
  exact ⟨res, h1, hne, h5 hne⟩

/-- C4: on the successful classification path, `primary_indicators` is exactly
the winning type's matches with per-match confidence > 0.5 and
`secondary_indicators` exactly those with confidence ≤ 0.5, both filtered from
the match list in discovery order, and together they partition the winning
type's matches. -/
theorem indicator_split (text : List Char)
    (M : NMTCDocumentType → Category → List (Nat × Nat)) (md : Metadata)
    (h1 : ¬(text = [] ∨ (pyStrip text).length < 50))
    (h2 : ¬(bestScore text M < low_confidence_threshold)) :
    ∃ res, detect_document_type text M (Except.ok md) = Except.ok res
      ∧ res.primary_indicators
          = (bestMatches text M).filter (fun m => decide ((1:ℚ)/2 < m.confidence))
      ∧ res.secondary_indicators
          = (bestMatches text M).filter (fun m => decide (m.confidence ≤ (1:ℚ)/2))
      ∧ (∀ m ∈ res.primary_indicators, (1:ℚ)/2 < m.confidence)
      ∧ (∀ m ∈ res.secondary_indicators, m.confidence ≤ (1:ℚ)/2)
      ∧ res.primary_indicators.length + res.secondary_indicators.length
          = (bestMatches text M).length := by
  refine ⟨_, detect_success text M md h1 h2, rfl, rfl, ?_, ?_, ?_⟩
  · intro m hm
    replace hm : m ∈ (bestMatches text M).filter
        (fun m => decide ((1:ℚ)/2 < m.confidence)) := hm
    have h := (List.mem_filter.mp hm).2
    simp only [decide_eq_true_eq] at h
    exact h
  · intro m hm
    replace hm : m ∈ (bestMatches text M).filter
        (fun m => decide (m.confidence ≤ (1:ℚ)/2)) := hm
    have h := (List.mem_filter.mp hm).2
    simp only [decide_eq_true_eq] at h
    exact h
  · show ((bestMatches text M).filter _).length + ((bestMatches text M).filter _).length
        = (bestMatches text M).length
    have hq : (fun m : PatternMatch => decide (m.confidence ≤ (1:ℚ)/2))
        = (fun m : PatternMatch => !(decide ((1:ℚ)/2 < m.confidence))) := by
      funext m
      exact decide_le_eq_not_lt _ _
    rw [hq]
    exact filter_partition_length _ _

/-- C4 witness: the split at the concrete fixture. -/
theorem indicator_split_witness :
    ∃ res, detect_document_type witText witM (Except.ok Metadata.extracted) = Except.ok res
      ∧ (∀ m ∈ res.primary_indicators, (1:ℚ)/2 < m.confidence)
      ∧ (∀ m ∈ res.secondary_indicators, m.confidence ≤ (1:ℚ)/2) := by
  obtain ⟨res, ha, _, _, hc, hd, _⟩ :=
    indicator_split witText witM Metadata.extracted (by decide) witThr
  exact ⟨res, ha, hc, hd⟩

/-- C5 counterexample: at a concrete text that passes the guard and wins
classification, a failing metadata extraction makes `detect_document_type`
raise `DocumentProcessingError` (modelled as `Except.error`) instead of
returning a degraded but usable result, refuting the claim that metadata
failure never aborts the classification. -/
theorem metadata_failure_counterexample :
    detect_document_type witText witM (Except.error "boom")
      = Except.error "Document type detection failed: boom" := by
  rw [detect_meta_error witText witM "boom" (by decide) witThr]
  rfl

/-- C5 amended: if any sub-step of metadata extraction raises an internal
error on the successful-classification path, `detect_document_type` aborts:
the exception propagates to the method's `except` clause and is re-raised as
`DocumentProcessingError("Document type detection failed: {e}")`; no result
object (degraded or otherwise) is returned. -/
theorem metadata_failure_aborts (text : List Char)
    (M : NMTCDocumentType → Category → List (Nat × Nat)) (e : String)
    (h1 : ¬(text = [] ∨ (pyStrip text).length < 50))
    (h2 : ¬(bestScore text M < low_confidence_threshold)) :
    detect_document_type text M (Except.error e)
      = Except.error ("Document type detection failed: " ++ e) :=
  detect_meta_error text M e h1 h2

/-- C5 witness: the abort at the concrete fixture. -/
theorem metadata_failure_aborts_witness :
    detect_document_type witText witM (Except.error "x")
      = Except.error ("Document type detection failed: " ++ "x") :=
  metadata_failure_aborts witText witM "x" (by decide) witThr

/-- C9: every per-match confidence is at least 0.56 = 0.7 × 0.8 (hence
strictly above the 0.5 split point), so on the successful classification path
`secondary_indicators` is empty and `primary_indicators` carries all of the
winning type's matches. -/
theorem confidence_floor_no_secondary (n s L : Nat) (cat : Category) (text : List Char)
    (M : NMTCDocumentType → Category → List (Nat × Nat)) (md : Metadata)
    (h1 : ¬(text = [] ∨ (pyStrip text).length < 50))
    (h2 : ¬(bestScore text M < low_confidence_threshold)) :
    14/25 ≤ calc_match_confidence n s L cat
    ∧ (1:ℚ)/2 < calc_match_confidence n s L cat
    ∧ ∃ res, detect_document_type text M (Except.ok md) = Except.ok res
        ∧ res.secondary_indicators = []
        ∧ res.primary_indicators = bestMatches text M := by
  refine ⟨calc_floor n s L cat,
    lt_of_lt_of_le (by norm_num) (calc_floor n s L cat),
    _, detect_success text M md h1 h2, ?_, ?_⟩
  · show ((bestMatches text M).filter _) = []
    apply List.filter_eq_nil_iff.mpr
    intro m hm
    have hc := mem_bestMatches_conf text M m hm
    simp only [decide_eq_true_eq]
    intro hcon
    linarith
  · show ((bestMatches text M).filter _) = bestMatches text M
    apply List.filter_eq_self.mpr
    intro m hm
    have hc := mem_bestMatches_conf text M m hm
    exact decide_eq_true (by linarith)

/-- C9 witness: the floor and the empty secondary list at the concrete
fixture. -/
theorem confidence_floor_no_secondary_witness :
    14/25 ≤ calc_match_confidence 60 0 20 Category.title_patterns
    ∧ ∃ res, detect_document_type witText witM (Except.ok Metadata.extracted)
        = Except.ok res ∧ res.secondary_indicators = [] := by
  obtain ⟨hf, _, res, ha, hb, _⟩ :=
    confidence_floor_no_secondary 60 0 20 Category.title_patterns witText witM
      Metadata.extracted (by decide) witThr
  exact ⟨hf, res, ha, hb⟩

/-- C10: every confidence the classifier can return is at most
0.836 = 0.4×1.0 + 0.3×0.9 + 0.2×0.83 (attained by the allocation-agreement
category caps), so the downstream "high" tier (≥ 0.9, no confirmation) is
unreachable for classifier-produced confidences. -/
theorem confidence_upper_bound (text : List Char)
    (M : NMTCDocumentType → Category → List (Nat × Nat)) (md : Metadata) :
    ∃ res, detect_document_type text M (Except.ok md) = Except.ok res
      ∧ res.confidence ≤ 209/250
      ∧ (detectionConfidenceTier res.confidence).confidence_level ≠ "high"
      ∧ (detectionConfidenceTier res.confidence).requires_confirmation = true
      ∧ ((categoriesOf NMTCDocumentType.allocation_agreement).map capContrib).sum
          = 209/250 := by
  have hkey : ∀ q : ℚ, q ≤ 209/250 →
      (detectionConfidenceTier q).confidence_level ≠ "high"
      ∧ (detectionConfidenceTier q).requires_confirmation = true := by
    intro q hq
    rw [detectionConfidenceTier, if_neg (by intro h; linarith)]
    split_ifs
    · exact ⟨by decide, rfl⟩
    · exact ⟨by decide, rfl⟩
  by_cases hg : text = [] ∨ (pyStrip text).length < 50
  · refine ⟨_, detect_guard text M _ hg, by norm_num [create_unknown_result],
      ?_, ?_, capSum_allocation⟩
    · exact (hkey 0 (by norm_num)).1
    · exact (hkey 0 (by norm_num)).2
  · by_cases hs : bestScore text M < low_confidence_threshold
    · refine ⟨_, detect_lowconf text M _ hg hs, by norm_num [create_unknown_result],
        ?_, ?_, capSum_allocation⟩
      · exact (hkey 0 (by norm_num)).1
      · exact (hkey 0 (by norm_num)).2
    · refine ⟨_, detect_success text M md hg hs, bestScore_le text M,
        (hkey _ (bestScore_le text M)).1, (hkey _ (bestScore_le text M)).2,
        capSum_allocation⟩

/-- C10 witness: the bound at the concrete fixture. -/
theorem confidence_upper_bound_witness :
    ∃ res, detect_document_type witText witM (Except.ok Metadata.extracted) = Except.ok res
      ∧ res.confidence ≤ 209/250
      ∧ (detectionConfidenceTier res.confidence).confidence_level ≠ "high" := by
  obtain ⟨res, ha, hb, hc, _⟩ :=
    confidence_upper_bound witText witM Metadata.extracted
  exact ⟨res, ha, hb, hc⟩

/-- C7 counterexample: exactly three (not four) of the eight document types
receive a bespoke reasoning sentence in `_generate_reasoning` — allocation
agreement, QLICI loan and QALICB certification; the financial statement gets a
type-specific metadata block but no bespoke sentence. -/
theorem reasoning_bespoke_count_counterexample :
    (get_all_document_types.filter (fun t => (bespokeSentence t).isSome)).length = 3
    ∧ ¬((get_all_document_types.filter
        (fun t => (bespokeSentence t).isSome)).length = 4) := by
  decide

/-- C7 amended: for every classification the reasoning string is non-empty;
its first part states the human-formatted type name and the confidence
percentage; a part carries the qualitative label from the fixed mapping
(High iff ≥ 0.7, Medium iff 0.4 ≤ c < 0.7, Low iff 0.2 ≤ c < 0.4, Very Low
iff < 0.2); the distinct primary- and secondary-indicator category names are
stated whenever the respective lists are non-empty; and a bespoke canned
sentence is appended for exactly THREE of the eight document types. -/
theorem generate_reasoning_spec (t : NMTCDocumentType) (c : ℚ) (ms : List PatternMatch) :
    generate_reasoning t c ms ≠ ""
    ∧ (reasoningParts t c ms).head?
        = some ("Document classified as " ++ humanTypeName t ++ " with "
            ++ formatPercent1 c ++ " confidence.")
    ∧ ("Confidence Level: " ++ get_confidence_level_description c) ∈ reasoningParts t c ms
    ∧ (("High".data.isPrefixOf (get_confidence_level_description c).data = true)
        ↔ high_confidence_threshold ≤ c)
    ∧ (("Medium".data.isPrefixOf (get_confidence_level_description c).data = true)
        ↔ (medium_confidence_threshold ≤ c ∧ c < high_confidence_threshold))
    ∧ (("Low".data.isPrefixOf (get_confidence_level_description c).data = true)
        ↔ (low_confidence_threshold ≤ c ∧ c < medium_confidence_threshold))
    ∧ (("Very Low".data.isPrefixOf (get_confidence_level_description c).data = true)
        ↔ c < low_confidence_threshold)
    ∧ ((ms.filter (fun m => decide ((1:ℚ)/2 < m.confidence))) ≠ []
        → ("Strong indicators found: " ++ distinctCategoryNames
              (ms.filter (fun m => decide ((1:ℚ)/2 < m.confidence))))
            ∈ reasoningParts t c ms)
    ∧ ((ms.filter (fun m => decide (m.confidence ≤ (1:ℚ)/2))) ≠ []
        → ("Supporting indicators: " ++ distinctCategoryNames
              (ms.filter (fun m => decide (m.confidence ≤ (1:ℚ)/2))))
            ∈ reasoningParts t c ms)
    ∧ (∀ str, bespokeSentence t = some str → str ∈ reasoningParts t c ms)
    ∧ (get_all_document_types.filter (fun t => (bespokeSentence t).isSome)).length = 3 := by
  refine ⟨?_, reasoningParts_head t c ms, ?_, ?_, ?_, ?_, ?_, ?_, ?_, ?_, by decide⟩
  · intro h
    have hp := generate_reasoning_pos t c ms
    rw [h] at hp
    simp at hp
  · rw [reasoningParts]
    simp only [List.append_assoc, List.cons_append, List.nil_append]
    exact List.mem_cons_of_mem _ (List.mem_cons_self _ _)
  · simp only [get_confidence_level_description, ge_iff_le, high_confidence_threshold,
      medium_confidence_threshold, low_confidence_threshold]
    split_ifs with h1 h2 h3
    · exact iff_of_true (by decide) h1
    · exact iff_of_false (by decide) (fun hc => absurd hc h1)
    · exact iff_of_false (by decide) (fun hc => absurd hc h1)
    · exact iff_of_false (by decide) (fun hc => absurd hc h1)
  · simp only [get_confidence_level_description, ge_iff_le, high_confidence_threshold,
      medium_confidence_threshold, low_confidence_threshold]
    split_ifs with h1 h2 h3
    · exact iff_of_false (by decide) (fun hc => absurd hc.2 (not_lt.mpr h1))
    · exact iff_of_true (by decide) ⟨h2, lt_of_not_le h1⟩
    · exact iff_of_false (by decide) (fun hc => absurd hc.1 h2)
    · exact iff_of_false (by decide) (fun hc => absurd hc.1 h2)
  · simp only [get_confidence_level_description, ge_iff_le, high_confidence_threshold,
      medium_confidence_threshold, low_confidence_threshold]
    split_ifs with h1 h2 h3
    · exact iff_of_false (by decide) (fun hc => by linarith [hc.2])
    · exact iff_of_false (by decide) (fun hc => absurd hc.2 (not_lt.mpr h2))
    · exact iff_of_true (by decide) ⟨h3, lt_of_not_le h2⟩
    · exact iff_of_false (by decide) (fun hc => absurd hc.1 h3)
  · simp only [get_confidence_level_description, ge_iff_le, high_confidence_threshold,
      medium_confidence_threshold, low_confidence_threshold]
    split_ifs with h1 h2 h3
    · exact iff_of_false (by decide) (fun hc => by linarith)
    · exact iff_of_false (by decide) (fun hc => by linarith)
    · exact iff_of_false (by decide) (fun hc => absurd hc (not_lt.mpr h3))
    · exact iff_of_true (by decide) (lt_of_not_le h3)
  · intro h
    have he : (ms.filter (fun m => decide ((1:ℚ)/2 < m.confidence))).isEmpty = false := by
      cases h' : (ms.filter (fun m => decide ((1:ℚ)/2 < m.confidence))).isEmpty
      · rfl
      · exact absurd (List.isEmpty_iff.mp h') h
    simp only [reasoningParts, he, Bool.false_eq_true, if_false]
    exact List.mem_append.mpr (Or.inl (List.mem_append.mpr (Or.inl
      (List.mem_append.mpr (Or.inr (List.mem_cons_self _ _))))))
  · intro h
    have he : (ms.filter (fun m => decide (m.confidence ≤ (1:ℚ)/2))).isEmpty = false := by
      cases h' : (ms.filter (fun m => decide (m.confidence ≤ (1:ℚ)/2))).isEmpty
      · rfl
      · exact absurd (List.isEmpty_iff.mp h') h
    simp only [reasoningParts, he, Bool.false_eq_true, if_false]
    exact List.mem_append.mpr (Or.inl (List.mem_append.mpr (Or.inr
      (List.mem_cons_self _ _))))
  · intro str hs
    cases t <;> simp only [bespokeSentence, Option.some.injEq, reduceCtorEq] at hs <;>
      first
        | exact hs.elim
        | (subst hs; simp [reasoningParts, bespokeSentence])

/-- C7 witness: non-emptiness and the confidence-level part at a concrete
classification outcome. -/
theorem generate_reasoning_spec_witness :
    generate_reasoning NMTCDocumentType.allocation_agreement (47/125) [] ≠ ""
    ∧ ("Confidence Level: " ++ get_confidence_level_description (47/125))
        ∈ reasoningParts NMTCDocumentType.allocation_agreement (47/125) [] := by
  obtain ⟨h1, _, h3, _⟩ :=
    generate_reasoning_spec NMTCDocumentType.allocation_agreement (47/125) []
  exact ⟨h1, h3⟩

/-- C8: the context string is built from the window
`[max(0, start-100), min(n, end+100))`: that window contains the matched text
and has at most `200 + (end-start)` characters; the result is the
whitespace-collapsed, stripped window with a leading ellipsis exactly when the
window's left edge is positive and a trailing ellipsis exactly when its right
edge is short of the text end; the collapsed core has no two adjacent
whitespace characters. -/
theorem context_window (text : List Char) (s e : Nat) (hse : s ≤ e)
    (hen : e ≤ text.length) :
    slice text s e <:+: slice text (s - 100) (min text.length (e + 100))
    ∧ (slice text (s - 100) (min text.length (e + 100))).length ≤ 200 + (e - s)
    ∧ extract_context text s e
        = (if 0 < s - 100 then ellipsisChars else [])
          ++ pyStrip (collapseWS (slice text (s - 100) (min text.length (e + 100))))
          ++ (if min text.length (e + 100) < text.length then ellipsisChars else [])
    ∧ List.Chain' noAdjWS
        (pyStrip (collapseWS (slice text (s - 100) (min text.length (e + 100))))) := by
  refine ⟨?_, ?_, ?_, chain_pyStrip_collapse _⟩
  · exact slice_within text (s - 100) s e (min text.length (e + 100)) (by omega) hse
      (le_min hen (by omega))
  · have h1 := slice_length_le text (s - 100) (min text.length (e + 100))
    have h2 : min text.length (e + 100) ≤ e + 100 := min_le_right _ _
    omega
  · simp only [extract_context]
    by_cases hcs : 0 < s - 100 <;>
      by_cases hce : min text.length (e + 100) < text.length <;>
        simp [hcs, hce, List.append_assoc]

/-- C8 witness: the window facts for a match at offsets 10–20 of the
60-character fixture text. -/
theorem context_window_witness :
    slice witText 10 20 <:+: slice witText (10 - 100) (min witText.length (20 + 100))
    ∧ (slice witText (10 - 100) (min witText.length (20 + 100))).length
        ≤ 200 + (20 - 10) := by
  obtain ⟨h1, h2, _, _⟩ := context_window witText 10 20 (by decide) (by decide)
  exact ⟨h1, h2⟩

end NMTC
